import Mathlib

/-!
Verification development for the DreamScribeAI storage layer, AI integration and
REST route handlers (`src/server/storage.ts`, `src/server/ai.ts`,
`src/server/routes.ts`, `src/shared/schema.ts`).

Modelling conventions:
* A JavaScript `Map<number, T>` is an association list `List (Nat × T)` kept in
  insertion order; `set` on an existing key overwrites in place, on a fresh key
  appends (matching `Map` iteration-order semantics).
* A JSON object used as a character `memory` document is an association list
  `List (String × Jval)` in key-insertion order; the atomic value type suffices
  because the code only ever merges such documents shallowly and never inspects
  the values.
* `new Date()` timestamps are explicit `Nat` millisecond parameters threaded
  into each operation that calls the clock.
* JavaScript `undefined` for a possibly-absent value is `Option`.
* JS numbers that carry mood intensities are modelled as `Rat`; the code never
  does arithmetic on them, only stores and compares them.
* The external Gemini API is an environment value: whether a credential is
  configured, the outcome of a fetch, and an oracle for `JSON.parse` on the
  model output.  The request payload built by the code does not influence any
  claim, so the fetch outcome is part of the environment.
-/

namespace DreamScribe

/-- Atomic JSON value for entries of a character `memory` document. The shallow
merge performed by the code never looks inside values, so atoms are enough. -/
inductive Jval
| jnum (n : Int)
| jstr (s : String)
| jbool (b : Bool)
deriving DecidableEq

/-- Lookup of a key in a JS object represented as an association list. -/
def objGet (o : List (String × Jval)) (k : String) : Option Jval :=
  (o.find? (fun p => p.1 == k)).map Prod.snd

/-- JS spread merge `\x7b...a, ...b\x7d` of two objects: the keys of `a` in
order, with values overridden by `b` where `b` has the key, followed by the
keys of `b` not present in `a`, in order. -/
def jsMerge (a b : List (String × Jval)) : List (String × Jval) :=
  a.map (fun p => (p.1, (objGet b p.1).getD p.2)) ++
    b.filter (fun p => !(a.any (fun q => q.1 == p.1)))

/-- Lookup in a `Map<number, T>`. -/
def mapGet (m : List (Nat × α)) (k : Nat) : Option α :=
  (m.find? (fun p => p.1 == k)).map Prod.snd

/-- `Map.set`: overwrite in place if the key is present, else append. -/
def mapSet (m : List (Nat × α)) (k : Nat) (v : α) : List (Nat × α) :=
  if m.any (fun p => p.1 == k) then
    m.map (fun p => if p.1 == k then (k, v) else p)
  else
    m ++ [(k, v)]

/-- `Map.delete`: returns whether the key was present, and the map without it. -/
def mapDelete (m : List (Nat × α)) (k : Nat) : Bool × List (Nat × α) :=
  (m.any (fun p => p.1 == k), m.filter (fun p => p.1 != k))

/-- `Array.from(map.values())`: the values in insertion order. -/
def mapValues (m : List (Nat × α)) : List α := m.map Prod.snd

/-- User row (`users` table in `src/shared/schema.ts`). -/
structure User where
  id : Nat
  username : String
  password : String
deriving DecidableEq

/-- World row (`worlds` table). -/
structure World where
  id : Nat
  userId : Nat
  name : String
  description : String
  createdAt : Nat
deriving DecidableEq

/-- Character row (`characters` table).  The three `currentMood*` fields are
absent from the schema but are written onto the runtime object by the
mood-persistence path in `routes.ts` (object spread keeps extra keys), so the
runtime record type carries them as optional fields defaulting to absent. -/
structure Character where
  id : Nat
  worldId : Nat
  name : String
  role : String
  appearance : Option String
  personality : String
  backstory : Option String
  memory : List (String × Jval)
  createdAt : Nat
  currentMood : Option String := none
  currentMoodIntensity : Option Rat := none
  currentMoodColor : Option String := none
deriving DecidableEq

/-- Scene row (`scenes` table). -/
structure Scene where
  id : Nat
  worldId : Nat
  title : String
  content : String
  styleType : Option String
  tone : Option String
  includedCharacters : List Nat
  createdAt : Nat
deriving DecidableEq

/-- Chat message row (`chat_messages` table).  `mood`, `moodIntensity` and
`moodColor` are absent from the schema but written by the generation route at
runtime; `content` is optional because the generation path can store the
JS `undefined` value when the model response part has no text. -/
structure ChatMessage where
  id : Nat
  characterId : Nat
  userId : Nat
  isUserMessage : Bool
  content : Option String
  createdAt : Nat
  mood : Option String := none
  moodIntensity : Option Rat := none
  moodColor : Option String := none
deriving DecidableEq

/-- Activity log row (`activity_logs` table). -/
structure ActivityLog where
  id : Nat
  worldId : Nat
  activityType : String
  entityId : Option Nat
  description : String
  createdAt : Nat
deriving DecidableEq

/-- Insert payload for a user. -/
structure InsertUser where
  username : String
  password : String
deriving DecidableEq

/-- Insert payload for a world (`insertWorldSchema`). -/
structure InsertWorld where
  userId : Nat
  name : String
  description : String
deriving DecidableEq

/-- Insert payload for a character (`insertCharacterSchema`). -/
structure InsertCharacter where
  worldId : Nat
  name : String
  role : String
  appearance : Option String
  personality : String
  backstory : Option String
  memory : List (String × Jval)
deriving DecidableEq

/-- Insert payload for a scene (`insertSceneSchema`). -/
structure InsertScene where
  worldId : Nat
  title : String
  content : String
  styleType : Option String
  tone : Option String
  includedCharacters : List Nat
deriving DecidableEq

/-- Insert payload for a chat message.  The generation route passes `mood`,
`moodIntensity` and `moodColor` keys on top of the schema fields, so the
payload carries them optionally. -/
structure InsertChatMessage where
  characterId : Nat
  userId : Nat
  isUserMessage : Bool
  content : Option String
  mood : Option String := none
  moodIntensity : Option Rat := none
  moodColor : Option String := none
deriving DecidableEq

/-- Insert payload for an activity log. -/
structure InsertActivityLog where
  worldId : Nat
  activityType : String
  entityId : Option Nat
  description : String
deriving DecidableEq

/-- A `Partial<World>` update document: each field is present or absent. -/
structure WorldPatch where
  id : Option Nat := none
  userId : Option Nat := none
  name : Option String := none
  description : Option String := none
  createdAt : Option Nat := none
deriving DecidableEq

/-- Present-key-wins combination for a field that is itself optional: a patch
key that is present replaces the value, an absent key keeps the old value. -/
def patchOpt (new old : Option α) : Option α :=
  match new with
  | some v => some v
  | none => old

/-- A `Partial<Character>` update document, including the runtime-only
`currentMood*` keys that the generation route patches in. -/
structure CharacterPatch where
  id : Option Nat := none
  worldId : Option Nat := none
  name : Option String := none
  role : Option String := none
  appearance : Option String := none
  personality : Option String := none
  backstory : Option String := none
  memory : Option (List (String × Jval)) := none
  createdAt : Option Nat := none
  currentMood : Option String := none
  currentMoodIntensity : Option Rat := none
  currentMoodColor : Option String := none
deriving DecidableEq

/-- A `Partial<Scene>` update document. -/
structure ScenePatch where
  id : Option Nat := none
  worldId : Option Nat := none
  title : Option String := none
  content : Option String := none
  styleType : Option String := none
  tone : Option String := none
  includedCharacters : Option (List Nat) := none
  createdAt : Option Nat := none
deriving DecidableEq

/-- JS spread `\x7b ...world, ...data \x7d`: every key present in `data` wins,
including `id` and `createdAt`. -/
def spreadWorld (w : World) (d : WorldPatch) : World :=
  { id := d.id.getD w.id
    userId := d.userId.getD w.userId
    name := d.name.getD w.name
    description := d.description.getD w.description
    createdAt := d.createdAt.getD w.createdAt }

/-- JS spread `\x7b ...character, ...data \x7d`. -/
def spreadCharacter (c : Character) (d : CharacterPatch) : Character :=
  { id := d.id.getD c.id
    worldId := d.worldId.getD c.worldId
    name := d.name.getD c.name
    role := d.role.getD c.role
    appearance := patchOpt d.appearance c.appearance
    personality := d.personality.getD c.personality
    backstory := patchOpt d.backstory c.backstory
    memory := d.memory.getD c.memory
    createdAt := d.createdAt.getD c.createdAt
    currentMood := patchOpt d.currentMood c.currentMood
    currentMoodIntensity := patchOpt d.currentMoodIntensity c.currentMoodIntensity
    currentMoodColor := patchOpt d.currentMoodColor c.currentMoodColor }

/-- JS spread `\x7b ...scene, ...data \x7d`. -/
def spreadScene (sc : Scene) (d : ScenePatch) : Scene :=
  { id := d.id.getD sc.id
    worldId := d.worldId.getD sc.worldId
    title := d.title.getD sc.title
    content := d.content.getD sc.content
    styleType := patchOpt d.styleType sc.styleType
    tone := patchOpt d.tone sc.tone
    includedCharacters := d.includedCharacters.getD sc.includedCharacters
    createdAt := d.createdAt.getD sc.createdAt }

/-- State of `MemStorage`: the six maps and the six id counters. -/
structure Storage where
  users : List (Nat × User)
  worlds : List (Nat × World)
  characters : List (Nat × Character)
  scenes : List (Nat × Scene)
  chatMessages : List (Nat × ChatMessage)
  activityLogs : List (Nat × ActivityLog)
  userIdCounter : Nat
  worldIdCounter : Nat
  characterIdCounter : Nat
  sceneIdCounter : Nat
  chatMessageIdCounter : Nat
  activityLogIdCounter : Nat
deriving DecidableEq

namespace MemStorage

/-- `getUser`. -/
def getUser (id : Nat) (s : Storage) : Option User :=
  mapGet s.users id

/-- `createUser`: take the next user id, build the row, store it. -/
def createUser (iu : InsertUser) (s : Storage) : User × Storage :=
  let id := s.userIdCounter
  let user : User := { id := id, username := iu.username, password := iu.password }
  (user, { s with users := mapSet s.users id user, userIdCounter := id + 1 })

/-- `getWorld`. -/
def getWorld (id : Nat) (s : Storage) : Option World :=
  mapGet s.worlds id

/-- `getWorldsByUser`. -/
def getWorldsByUser (userId : Nat) (s : Storage) : List World :=
  (mapValues s.worlds).filter (fun w => w.userId == userId)

/-- `createWorld`: next id, server `createdAt` from the clock parameter. -/
def createWorld (iw : InsertWorld) (now : Nat) (s : Storage) : World × Storage :=
  let id := s.worldIdCounter
  let world : World :=
    { id := id, userId := iw.userId, name := iw.name
      description := iw.description, createdAt := now }
  (world, { s with worlds := mapSet s.worlds id world, worldIdCounter := id + 1 })

/-- `updateWorld`: absent id returns undefined and leaves the state alone;
present id stores the spread of the old row with the patch. -/
def updateWorld (id : Nat) (d : WorldPatch) (s : Storage) : Option World × Storage :=
  match mapGet s.worlds id with
  | none => (none, s)
  | some w =>
    let updatedWorld := spreadWorld w d
    (some updatedWorld, { s with worlds := mapSet s.worlds id updatedWorld })

/-- `deleteWorld`: removes only the world row itself. -/
def deleteWorld (id : Nat) (s : Storage) : Bool × Storage :=
  let r := mapDelete s.worlds id
  (r.1, { s with worlds := r.2 })

/-- `getCharacter`. -/
def getCharacter (id : Nat) (s : Storage) : Option Character :=
  mapGet s.characters id

/-- `getCharactersByWorld`. -/
def getCharactersByWorld (worldId : Nat) (s : Storage) : List Character :=
  (mapValues s.characters).filter (fun c => c.worldId == worldId)

/-- `createCharacter`: stores the row with the next id regardless of whether
the supplied `worldId` names an existing world. -/
def createCharacter (ic : InsertCharacter) (now : Nat) (s : Storage) :
    Character × Storage :=
  let id := s.characterIdCounter
  let character : Character :=
    { id := id, worldId := ic.worldId, name := ic.name, role := ic.role
      appearance := ic.appearance, personality := ic.personality
      backstory := ic.backstory, memory := ic.memory, createdAt := now }
  (character,
    { s with characters := mapSet s.characters id character
             characterIdCounter := id + 1 })

/-- `updateCharacter`. -/
def updateCharacter (id : Nat) (d : CharacterPatch) (s : Storage) :
    Option Character × Storage :=
  match mapGet s.characters id with
  | none => (none, s)
  | some c =>
    let updatedCharacter := spreadCharacter c d
    (some updatedCharacter,
      { s with characters := mapSet s.characters id updatedCharacter })

/-- `updateCharacterMemory`: stores `\x7b ...character, memory \x7d`, i.e. the
memory field is replaced with the supplied document. -/
def updateCharacterMemory (id : Nat) (memory : List (String × Jval))
    (s : Storage) : Option Character × Storage :=
  match mapGet s.characters id with
  | none => (none, s)
  | some c =>
    let updatedCharacter := { c with memory := memory }
    (some updatedCharacter,
      { s with characters := mapSet s.characters id updatedCharacter })

/-- `deleteCharacter`. -/
def deleteCharacter (id : Nat) (s : Storage) : Bool × Storage :=
  let r := mapDelete s.characters id
  (r.1, { s with characters := r.2 })

/-- `getScene`. -/
def getScene (id : Nat) (s : Storage) : Option Scene :=
  mapGet s.scenes id

/-- `getScenesByWorld`: filter by world, then the stable JS sort with
comparator `(a, b) => b.createdAt - a.createdAt` (newest first). -/
def getScenesByWorld (worldId : Nat) (s : Storage) : List Scene :=
  List.insertionSort (fun a b => b.createdAt ≤ a.createdAt)
    ((mapValues s.scenes).filter (fun sc => sc.worldId == worldId))

/-- `createScene`. -/
def createScene (isc : InsertScene) (now : Nat) (s : Storage) : Scene × Storage :=
  let id := s.sceneIdCounter
  let scene : Scene :=
    { id := id, worldId := isc.worldId, title := isc.title
      content := isc.content, styleType := isc.styleType, tone := isc.tone
      includedCharacters := isc.includedCharacters, createdAt := now }
  (scene, { s with scenes := mapSet s.scenes id scene, sceneIdCounter := id + 1 })

/-- `updateScene`. -/
def updateScene (id : Nat) (d : ScenePatch) (s : Storage) : Option Scene × Storage :=
  match mapGet s.scenes id with
  | none => (none, s)
  | some sc =>
    let updatedScene := spreadScene sc d
    (some updatedScene, { s with scenes := mapSet s.scenes id updatedScene })

/-- `deleteScene`. -/
def deleteScene (id : Nat) (s : Storage) : Bool × Storage :=
  let r := mapDelete s.scenes id
  (r.1, { s with scenes := r.2 })

/-- `getChatMessagesByCharacter`: filter by character, stable sort oldest
first (comparator `(a, b) => a.createdAt - b.createdAt`). -/
def getChatMessagesByCharacter (characterId : Nat) (s : Storage) : List ChatMessage :=
  List.insertionSort (fun a b => a.createdAt ≤ b.createdAt)
    ((mapValues s.chatMessages).filter (fun m => m.characterId == characterId))

/-- `createChatMessage`. -/
def createChatMessage (im : InsertChatMessage) (now : Nat) (s : Storage) :
    ChatMessage × Storage :=
  let id := s.chatMessageIdCounter
  let message : ChatMessage :=
    { id := id, characterId := im.characterId, userId := im.userId
      isUserMessage := im.isUserMessage, content := im.content
      createdAt := now, mood := im.mood, moodIntensity := im.moodIntensity
      moodColor := im.moodColor }
  (message,
    { s with chatMessages := mapSet s.chatMessages id message
             chatMessageIdCounter := id + 1 })

/-- JS `Array.prototype.slice(0, n)`: a nonnegative end index takes the first
`n` elements, a negative one counts from the end of the array. -/
def jsSliceTo (l : List α) (n : Int) : List α :=
  if 0 ≤ n then l.take n.toNat else l.take (l.length - (-n).toNat)

/-- `getActivityLogsByWorld`: filter by world, stable sort newest first, then
`if (limit) logs = logs.slice(0, limit)` — a supplied limit of `0` is falsy in
JS, so the cap is skipped and all logs are returned. -/
def getActivityLogsByWorld (worldId : Nat) (limit : Option Int) (s : Storage) :
    List ActivityLog :=
  let logs :=
    List.insertionSort (fun a b => b.createdAt ≤ a.createdAt)
      ((mapValues s.activityLogs).filter (fun l => l.worldId == worldId))
  match limit with
  | none => logs
  | some n => if n = 0 then logs else jsSliceTo logs n

/-- `createActivityLog`. -/
def createActivityLog (il : InsertActivityLog) (now : Nat) (s : Storage) :
    ActivityLog × Storage :=
  let id := s.activityLogIdCounter
  let log : ActivityLog :=
    { id := id, worldId := il.worldId, activityType := il.activityType
      entityId := il.entityId, description := il.description, createdAt := now }
  (log,
    { s with activityLogs := mapSet s.activityLogs id log
             activityLogIdCounter := id + 1 })

end MemStorage

/-! AI integration (`src/server/ai.ts`). -/

/-- Result shape of `analyzeMoodFromText` (interface `MoodAnalysis`). -/
structure MoodAnalysis where
  mood : String
  intensity : Rat
  dominantColor : String
deriving DecidableEq

/-- Fixed neutral default returned on every failure path of the analyzer. -/
def neutralMood : MoodAnalysis :=
  { mood := "neutral", intensity := 1/2, dominantColor := "#808080" }

/-- Fixed fallback reply of the character response generator. -/
def fallbackResponse : String :=
  "I seem to be having trouble finding the right words. Perhaps we can try again in a moment?"

/-- One element of `data.candidates[0].content.parts`; JSON may omit `text`. -/
structure GeminiPart where
  text : Option String
deriving DecidableEq

/-- The `content` object of a candidate. -/
structure GeminiContent where
  parts : List GeminiPart
deriving DecidableEq

/-- One candidate; JSON may omit `content`. -/
structure GeminiCandidate where
  content : Option GeminiContent
deriving DecidableEq

/-- The parsed response body; JSON may omit `candidates` entirely. -/
structure GeminiData where
  candidates : Option (List GeminiCandidate)
deriving DecidableEq

/-- Outcome of one `fetch` + `response.json()` round trip: a thrown error
(network failure or invalid body) or parsed data. -/
inductive FetchOutcome
| netError
| ok (data : GeminiData)
deriving DecidableEq

/-- Environment of a single AI call: whether `GEMINI_API_KEY` is configured,
the outcome the network would deliver, and an oracle for `JSON.parse` on the
model output (`none` models a thrown `SyntaxError`).  The request payload the
code assembles cannot change any property verified here, so the outcome is a
plain environment value. -/
structure GeminiEnv where
  hasKey : Bool
  fetch : FetchOutcome
  parseMood : String → Option MoodAnalysis

/-- Characters of the fence token `三backquotes + json` matched first by the
regex alternation in `analyzeMoodFromText`. -/
def fenceJsonTok : List Char := "```json".toList

/-- Characters of the bare fence token matched second. -/
def fenceTok : List Char := "```".toList

/-- Global left-to-right replacement of ``/```json|```/g`` with the empty
string: at each position the longer alternative is tried first. -/
def stripFencesAux : List Char → List Char
  | [] => []
  | c :: cs =>
    if fenceJsonTok.isPrefixOf (c :: cs) then
      stripFencesAux ((c :: cs).drop 7)
    else if fenceTok.isPrefixOf (c :: cs) then
      stripFencesAux ((c :: cs).drop 3)
    else
      c :: stripFencesAux cs
termination_by l => l.length
decreasing_by
  all_goals simp [List.length_drop]
  all_goals omega

/-- `textResponse.replace(fences, '').trim()`. -/
def stripFences (s : String) : String :=
  (String.mk (stripFencesAux s.data)).trim

/-- Result of `generateCharacterResponse` together with whether the code
reached the `fetch` call: `response = none` models returning the JS
`undefined` value. -/
structure GenResult where
  response : Option String
  networkCalled : Bool
deriving DecidableEq

/-- `generateCharacterResponse` from `src/server/ai.ts`.  The character and
message arguments only shape the request payload (recent-10 slice, prompt
text), which is abstracted by `env.fetch`; the control flow on the response is
modelled branch for branch.  An empty `parts` array makes `parts[0].text`
throw, which the surrounding `try` turns into the fallback; a part without a
`text` key returns the JS `undefined` value. -/
def generateCharacterResponse (env : GeminiEnv) (character : Character)
    (messages : List ChatMessage) : GenResult :=
  if !env.hasKey then
    { response := some fallbackResponse, networkCalled := false }
  else
    match env.fetch with
    | .netError => { response := some fallbackResponse, networkCalled := true }
    | .ok data =>
      match data.candidates with
      | none => { response := some fallbackResponse, networkCalled := true }
      | some [] => { response := some fallbackResponse, networkCalled := true }
      | some (cand :: _) =>
        match cand.content with
        | none => { response := some fallbackResponse, networkCalled := true }
        | some content =>
          match content.parts with
          | [] => { response := some fallbackResponse, networkCalled := true }
          | part :: _ => { response := part.text, networkCalled := true }

/-- `analyzeMoodFromText` from `src/server/ai.ts`: every failure branch —
missing credential, thrown fetch, absent/empty candidate list, absent content,
a throwing access to `parts[0].text`, and a `JSON.parse` failure on the
fence-stripped text — lands on the fixed neutral default; a successful parse
is returned as is. -/
def analyzeMoodFromText (env : GeminiEnv) (text : String) : MoodAnalysis :=
  if !env.hasKey then neutralMood
  else
    match env.fetch with
    | .netError => neutralMood
    | .ok data =>
      match data.candidates with
      | none => neutralMood
      | some [] => neutralMood
      | some (cand :: _) =>
        match cand.content with
        | none => neutralMood
        | some content =>
          match content.parts with
          | [] => neutralMood
          | part :: _ =>
            match part.text with
            | none => neutralMood
            | some t =>
              match env.parseMood (stripFences t) with
              | none => neutralMood
              | some m => m

/-! Route handlers (`src/server/routes.ts`).  Requests are modelled after
validation; each `new Date()` inside a store call is an explicit clock
parameter. -/

/-- `POST /api/worlds`: create the world (with `userId` forced to 1), then
append a `WORLD_CREATED` activity log. -/
def postWorldRoute (name description : String) (t1 t2 : Nat) (s : Storage) :
    World × Storage :=
  let r1 := MemStorage.createWorld
    { userId := 1, name := name, description := description } t1 s
  let newWorld := r1.1
  let r2 := MemStorage.createActivityLog
    { worldId := newWorld.id, activityType := "WORLD_CREATED"
      entityId := some newWorld.id
      description := "Created world " ++ newWorld.name } t2 r1.2
  (newWorld, r2.2)

/-- `POST /api/characters`: create the character, then append a
`CHARACTER_CREATED` activity log against the character's world. -/
def postCharacterRoute (body : InsertCharacter) (t1 t2 : Nat) (s : Storage) :
    Character × Storage :=
  let r1 := MemStorage.createCharacter body t1 s
  let newCharacter := r1.1
  let r2 := MemStorage.createActivityLog
    { worldId := newCharacter.worldId, activityType := "CHARACTER_CREATED"
      entityId := some newCharacter.id
      description := "Created character " ++ newCharacter.name } t2 r1.2
  (newCharacter, r2.2)

/-- `PATCH /api/characters/:id/memory`: 404 when the character is absent,
otherwise merge the request body over the current memory
(`\x7b ...currentMemory, ...req.body \x7d`) and store the merged document via
`updateCharacterMemory`. -/
def patchCharacterMemoryRoute (characterId : Nat) (body : List (String × Jval))
    (s : Storage) : Option Character × Storage :=
  match MemStorage.getCharacter characterId s with
  | none => (none, s)
  | some character =>
    let currentMemory := character.memory
    let newMemory := jsMerge currentMemory body
    MemStorage.updateCharacterMemory characterId newMemory s

/-- `GET /api/worlds/:worldId/characters`: 404 when the world is absent. -/
def getWorldCharactersRoute (worldId : Nat) (s : Storage) :
    Option (List Character) :=
  match MemStorage.getWorld worldId s with
  | none => none
  | some _ => some (MemStorage.getCharactersByWorld worldId s)

/-- `GET /api/worlds/:worldId/activity`: 404 when the world is absent. -/
def getWorldActivityRoute (worldId : Nat) (limit : Option Int) (s : Storage) :
    Option (List ActivityLog) :=
  match MemStorage.getWorld worldId s with
  | none => none
  | some _ => some (MemStorage.getActivityLogsByWorld worldId limit s)

/-- `POST /api/generate-character-response`: 404 when the character is absent;
otherwise generate a reply, analyze its mood, store a new chat message whose
payload carries the three mood keys, and patch the character's `currentMood*`
keys.  The two external calls get independent environments.  The `undefined`
reply of a text-less part is stringified by the template literal inside the
analyzer prompt. -/
def generateCharacterResponseRoute (envG envA : GeminiEnv) (characterId : Nat)
    (tMsg : Nat) (s : Storage) :
    Option (Option String × MoodAnalysis) × Storage :=
  match MemStorage.getCharacter characterId s with
  | none => (none, s)
  | some character =>
    let messages := MemStorage.getChatMessagesByCharacter character.id s
    let gen := generateCharacterResponse envG character messages
    let moodAnalysis := analyzeMoodFromText envA (gen.response.getD "undefined")
    let r1 := MemStorage.createChatMessage
      { characterId := character.id, userId := 1, isUserMessage := false
        content := gen.response, mood := some moodAnalysis.mood
        moodIntensity := some moodAnalysis.intensity
        moodColor := some moodAnalysis.dominantColor } tMsg s
    let r2 := MemStorage.updateCharacter character.id
      { currentMood := some moodAnalysis.mood
        currentMoodIntensity := some moodAnalysis.intensity
        currentMoodColor := some moodAnalysis.dominantColor } r1.2
    (some (gen.response, moodAnalysis), r2.2)

/-! Operation sequences over the store, for stating invariants that quantify
over every reachable interaction. -/

/-- The six entity families of the store. -/
inductive EntityTag
| user
| world
| character
| scene
| chatMessage
| activityLog
deriving DecidableEq

/-- One mutating store call together with its arguments (clock readings
included as explicit parameters). -/
inductive StoreOp
| opCreateUser (u : InsertUser)
| opCreateWorld (w : InsertWorld) (now : Nat)
| opUpdateWorld (id : Nat) (d : WorldPatch)
| opDeleteWorld (id : Nat)
| opCreateCharacter (c : InsertCharacter) (now : Nat)
| opUpdateCharacter (id : Nat) (d : CharacterPatch)
| opUpdateCharacterMemory (id : Nat) (memory : List (String × Jval))
| opDeleteCharacter (id : Nat)
| opCreateScene (sc : InsertScene) (now : Nat)
| opUpdateScene (id : Nat) (d : ScenePatch)
| opDeleteScene (id : Nat)
| opCreateChatMessage (m : InsertChatMessage) (now : Nat)
| opCreateActivityLog (l : InsertActivityLog) (now : Nat)

/-- State transition of one store call, with the returned value discarded. -/
def step (s : Storage) (op : StoreOp) : Storage :=
  match op with
  | .opCreateUser u => (MemStorage.createUser u s).2
  | .opCreateWorld w now => (MemStorage.createWorld w now s).2
  | .opUpdateWorld id d => (MemStorage.updateWorld id d s).2
  | .opDeleteWorld id => (MemStorage.deleteWorld id s).2
  | .opCreateCharacter c now => (MemStorage.createCharacter c now s).2
  | .opUpdateCharacter id d => (MemStorage.updateCharacter id d s).2
  | .opUpdateCharacterMemory id mm => (MemStorage.updateCharacterMemory id mm s).2
  | .opDeleteCharacter id => (MemStorage.deleteCharacter id s).2
  | .opCreateScene sc now => (MemStorage.createScene sc now s).2
  | .opUpdateScene id d => (MemStorage.updateScene id d s).2
  | .opDeleteScene id => (MemStorage.deleteScene id s).2
  | .opCreateChatMessage m now => (MemStorage.createChatMessage m now s).2
  | .opCreateActivityLog l now => (MemStorage.createActivityLog l now s).2

/-- The id counter of family `t`. -/
def counterOf (t : EntityTag) (s : Storage) : Nat :=
  match t with
  | .user => s.userIdCounter
  | .world => s.worldIdCounter
  | .character => s.characterIdCounter
  | .scene => s.sceneIdCounter
  | .chatMessage => s.chatMessageIdCounter
  | .activityLog => s.activityLogIdCounter

/-- Whether `op` is the create call of family `t`. -/
def isCreateOf (t : EntityTag) (op : StoreOp) : Bool :=
  match t, op with
  | .user, .opCreateUser _ => true
  | .world, .opCreateWorld _ _ => true
  | .character, .opCreateCharacter _ _ => true
  | .scene, .opCreateScene _ _ => true
  | .chatMessage, .opCreateChatMessage _ _ => true
  | .activityLog, .opCreateActivityLog _ _ => true
  | _, _ => false

/-- The ids returned by the create calls of family `t` along a call sequence,
in call order; every create returns the counter current at its call. -/
def issuedIds (t : EntityTag) (s : Storage) : List StoreOp → List Nat
  | [] => []
  | op :: ops =>
    (if isCreateOf t op then [counterOf t s] else []) ++
      issuedIds t (step s op) ops

/-- Referential integrity of a store state: every character, scene and
activity log names an existing world, every chat message an existing
character. -/
def integrityB (s : Storage) : Bool :=
  s.characters.all (fun p => (mapGet s.worlds p.2.worldId).isSome) &&
  s.scenes.all (fun p => (mapGet s.worlds p.2.worldId).isSome) &&
  s.activityLogs.all (fun p => (mapGet s.worlds p.2.worldId).isSome) &&
  s.chatMessages.all (fun p => (mapGet s.characters p.2.characterId).isSome)

/-- Store with the six empty maps and all counters at their initial value 1;
the constructor then seeds demo rows through the same create paths. -/
def emptyStorage : Storage :=
  { users := [], worlds := [], characters := [], scenes := []
    chatMessages := [], activityLogs := []
    userIdCounter := 1, worldIdCounter := 1, characterIdCounter := 1
    sceneIdCounter := 1, chatMessageIdCounter := 1, activityLogIdCounter := 1 }

/-! Map lemmas. -/

/-- A lookup misses exactly when no entry carries the key. -/
theorem mapGet_eq_none_iff (m : List (Nat × α)) (k : Nat) :
    mapGet m k = none ↔ m.any (fun p => p.1 == k) = false := by
  induction m with
  | nil => simp [mapGet]
  | cons p t ih =>
    cases hpk : (p.1 == k) with
    | true => simp [mapGet, List.find?, hpk]
    | false =>
      rw [show (mapGet (p :: t) k = none) = (mapGet t k = none) by
        simp [mapGet, List.find?, hpk]]
      rw [ih]
      simp [List.any_cons, hpk]

/-- Replacing the entries that carry key `k` leaves a `find?` for the matching
key pointing at the replacement. -/
theorem find?_replace_self (k : Nat) (v : α) :
    ∀ m : List (Nat × α), m.any (fun p => p.1 == k) = true →
      (m.map (fun p => if p.1 == k then (k, v) else p)).find?
        (fun p => p.1 == k) = some (k, v) := by
  intro m
  induction m with
  | nil => simp
  | cons p t ih =>
    intro hany
    simp only [List.map_cons]
    by_cases hpk : p.1 = k
    · rw [if_pos (by simpa using hpk)]
      rw [List.find?_cons_of_pos _ (by simp)]
    · rw [if_neg (by simpa using hpk)]
      rw [List.find?_cons_of_neg _ (by simpa using hpk)]
      refine ih ?_
      simp only [List.any_cons, Bool.or_eq_true] at hany
      rcases hany with h1 | h1
      · exact absurd (by simpa using h1) hpk
      · exact h1

/-- Replacing the entries that carry key `k` does not affect a `find?` for a
different key. -/
theorem find?_replace_ne (k k' : Nat) (v : α) (h : k' ≠ k) :
    ∀ m : List (Nat × α),
      (m.map (fun p => if p.1 == k then (k, v) else p)).find?
        (fun p => p.1 == k') = m.find? (fun p => p.1 == k') := by
  intro m
  induction m with
  | nil => simp
  | cons p t ih =>
    simp only [List.map_cons]
    by_cases hpk : p.1 = k
    · rw [if_pos (by simpa using hpk)]
      rw [List.find?_cons_of_neg _ (by simpa using Ne.symm h)]
      rw [List.find?_cons_of_neg _ (by simp [hpk]; exact Ne.symm h)]
      exact ih
    · rw [if_neg (by simpa using hpk)]
      by_cases hpk' : p.1 = k'
      · rw [List.find?_cons_of_pos _ (by simpa using hpk'),
          List.find?_cons_of_pos _ (by simpa using hpk')]
      · rw [List.find?_cons_of_neg _ (by simpa using hpk'),
          List.find?_cons_of_neg _ (by simpa using hpk')]
        exact ih

/-- After `set`, looking the key up yields the stored value. -/
theorem mapGet_mapSet_self (m : List (Nat × α)) (k : Nat) (v : α) :
    mapGet (mapSet m k v) k = some v := by
  unfold mapSet
  split
  case isTrue h =>
    unfold mapGet
    rw [find?_replace_self k v m h]
    rfl
  case isFalse h =>
    unfold mapGet
    rw [List.find?_append]
    have hnone : m.find? (fun p => p.1 == k) = none := by
      have : mapGet m k = none := by
        rw [mapGet_eq_none_iff]
        cases hany : m.any (fun p => p.1 == k)
        · rfl
        · exact absurd hany h
      unfold mapGet at this
      cases hf : m.find? (fun p => p.1 == k)
      · rfl
      · rw [hf] at this
        simp at this
    rw [hnone]
    simp [List.find?]

/-- `set` on a fresh key is an append. -/
theorem mapSet_fresh (m : List (Nat × α)) (k : Nat) (v : α)
    (h : mapGet m k = none) : mapSet m k v = m ++ [(k, v)] := by
  unfold mapSet
  rw [if_neg]
  rw [mapGet_eq_none_iff] at h
  simp [h]

/-- Lookups at other keys are unchanged by `set`. -/
theorem mapGet_mapSet_ne (m : List (Nat × α)) (k k' : Nat) (v : α)
    (h : k' ≠ k) : mapGet (mapSet m k v) k' = mapGet m k' := by
  unfold mapSet
  split
  case isTrue _ =>
    unfold mapGet
    rw [find?_replace_ne k k' v h m]
  case isFalse _ =>
    unfold mapGet
    rw [List.find?_append]
    have hkk : (k == k') = false := beq_eq_false_iff_ne.mpr (Ne.symm h)
    have hlast : List.find? (fun p => p.1 == k') [(k, v)] = none := by
      simp [List.find?, hkk]
    rw [hlast]
    cases hf : m.find? (fun p => p.1 == k') <;> simp [Option.or]

/-! Counter lemmas for the id-monotonicity invariant. -/

/-- `updateWorld` leaves every id counter alone. -/
theorem counters_updateWorld (id : Nat) (d : WorldPatch) (s : Storage)
    (t : EntityTag) :
    counterOf t (MemStorage.updateWorld id d s).2 = counterOf t s := by
  unfold MemStorage.updateWorld
  cases mapGet s.worlds id <;> cases t <;> rfl

/-- `updateCharacter` leaves every id counter alone. -/
theorem counters_updateCharacter (id : Nat) (d : CharacterPatch) (s : Storage)
    (t : EntityTag) :
    counterOf t (MemStorage.updateCharacter id d s).2 = counterOf t s := by
  unfold MemStorage.updateCharacter
  cases mapGet s.characters id <;> cases t <;> rfl

/-- `updateCharacterMemory` leaves every id counter alone. -/
theorem counters_updateCharacterMemory (id : Nat) (mm : List (String × Jval))
    (s : Storage) (t : EntityTag) :
    counterOf t (MemStorage.updateCharacterMemory id mm s).2 = counterOf t s := by
  unfold MemStorage.updateCharacterMemory
  cases mapGet s.characters id <;> cases t <;> rfl

/-- `updateScene` leaves every id counter alone. -/
theorem counters_updateScene (id : Nat) (d : ScenePatch) (s : Storage)
    (t : EntityTag) :
    counterOf t (MemStorage.updateScene id d s).2 = counterOf t s := by
  unfold MemStorage.updateScene
  cases mapGet s.scenes id <;> cases t <;> rfl

/-- No store call ever decreases an id counter. -/
theorem counterOf_step_le (t : EntityTag) (s : Storage) (op : StoreOp) :
    counterOf t s ≤ counterOf t (step s op) := by
  cases op with
  | opCreateUser u =>
    cases t <;> simp [step, counterOf, MemStorage.createUser]
  | opCreateWorld w now =>
    cases t <;> simp [step, counterOf, MemStorage.createWorld]
  | opUpdateWorld id d => rw [step, counters_updateWorld]
  | opDeleteWorld id =>
    cases t <;> simp [step, counterOf, MemStorage.deleteWorld]
  | opCreateCharacter c now =>
    cases t <;> simp [step, counterOf, MemStorage.createCharacter]
  | opUpdateCharacter id d => rw [step, counters_updateCharacter]
  | opUpdateCharacterMemory id mm => rw [step, counters_updateCharacterMemory]
  | opDeleteCharacter id =>
    cases t <;> simp [step, counterOf, MemStorage.deleteCharacter]
  | opCreateScene sc now =>
    cases t <;> simp [step, counterOf, MemStorage.createScene]
  | opUpdateScene id d => rw [step, counters_updateScene]
  | opDeleteScene id =>
    cases t <;> simp [step, counterOf, MemStorage.deleteScene]
  | opCreateChatMessage m now =>
    cases t <;> simp [step, counterOf, MemStorage.createChatMessage]
  | opCreateActivityLog l now =>
    cases t <;> simp [step, counterOf, MemStorage.createActivityLog]

/-- The create call of family `t` strictly increases that family's counter. -/
theorem counterOf_step_lt (t : EntityTag) (s : Storage) (op : StoreOp)
    (h : isCreateOf t op = true) :
    counterOf t s < counterOf t (step s op) := by
  cases op <;> cases t <;> simp [isCreateOf] at h <;>
    simp [step, counterOf, MemStorage.createUser, MemStorage.createWorld,
      MemStorage.createCharacter, MemStorage.createScene,
      MemStorage.createChatMessage, MemStorage.createActivityLog]

/-- Every id issued along a call sequence is at least the starting counter. -/
theorem issuedIds_lower (t : EntityTag) (ops : List StoreOp) :
    ∀ s : Storage, ∀ x ∈ issuedIds t s ops, counterOf t s ≤ x := by
  induction ops with
  | nil => simp [issuedIds]
  | cons op ops ih =>
    intro s x hx
    rw [issuedIds] at hx
    rcases List.mem_append.mp hx with h1 | h1
    · cases hc : isCreateOf t op <;> rw [hc] at h1 <;> simp at h1
      omega
    · exact le_trans (counterOf_step_le t s op) (ih (step s op) x h1)

/-! Concrete sample data shared by witnesses and counterexamples. -/

/-- Sample world row. -/
def sampleWorld : World :=
  { id := 1, userId := 1, name := "Ethereal Isles"
    description := "A realm of floating islands", createdAt := 100 }

/-- Sample character row living in `sampleWorld`, with memory `\x7ba: 1\x7d`. -/
def sampleCharacter : Character :=
  { id := 1, worldId := 1, name := "Lyra", role := "Rogue Elf"
    appearance := none, personality := "Cunning", backstory := none
    memory := [("a", Jval.jnum 1)], createdAt := 150 }

/-- Sample scene row in `sampleWorld`. -/
def sampleScene : Scene :=
  { id := 1, worldId := 1, title := "The Call", content := "A storm rages."
    styleType := none, tone := none, includedCharacters := [1], createdAt := 200 }

/-- Sample activity log row for `sampleWorld`. -/
def sampleLog : ActivityLog :=
  { id := 1, worldId := 1, activityType := "WORLD_UPDATED", entityId := some 1
    description := "Updated world Ethereal Isles", createdAt := 120 }

/-- A small store: one world owning one character, one scene and one log. -/
def sampleStorage : Storage :=
  { users := [], worlds := [(1, sampleWorld)]
    characters := [(1, sampleCharacter)], scenes := [(1, sampleScene)]
    chatMessages := [], activityLogs := [(1, sampleLog)]
    userIdCounter := 1, worldIdCounter := 2, characterIdCounter := 2
    sceneIdCounter := 2, chatMessageIdCounter := 1, activityLogIdCounter := 2 }

/-! Claim C1: the store operation `updateCharacterMemory` is specified to
shallow-merge, but the source stores `\x7b ...character, memory \x7d`, i.e. it
replaces the memory document wholesale; the shallow merge lives one layer up,
in the `PATCH /api/characters/:id/memory` route handler. -/

/-- C1 fails as stated at a concrete input: the character's memory is
`\x7ba: 1\x7d`, the store operation `updateCharacterMemory` is called with
`\x7bb: 2\x7d`, and the stored memory is exactly `\x7bb: 2\x7d` — not the
shallow merge of the two, which would still contain the key `a`. -/
theorem claim_C1_counterexample :
    (mapGet (MemStorage.updateCharacterMemory 1 [("b", Jval.jnum 2)]
        sampleStorage).2.characters 1).map Character.memory =
      some [("b", Jval.jnum 2)] ∧
    jsMerge sampleCharacter.memory [("b", Jval.jnum 2)] ≠ [("b", Jval.jnum 2)] := by
  decide

/-- C1 amended: `updateCharacterMemory` itself replaces the memory document;
the shallow merge (key union, request keys winning) is performed by the
`PATCH /api/characters/:id/memory` handler, which merges the request body over
the current memory before calling `updateCharacterMemory`, so that applying
`\x7ba: 1\x7d` then `\x7bb: 2\x7d` through the endpoint leaves both keys in
the stored memory. -/
theorem claim_C1_memory_patch_route_merges (s : Storage) (i : Nat)
    (c : Character) (body : List (String × Jval))
    (h : mapGet s.characters i = some c) :
    (patchCharacterMemoryRoute i body s).1 =
      some { c with memory := jsMerge c.memory body } ∧
    mapGet (patchCharacterMemoryRoute i body s).2.characters i =
      some { c with memory := jsMerge c.memory body } := by
  unfold patchCharacterMemoryRoute MemStorage.getCharacter
  rw [h]
  unfold MemStorage.updateCharacterMemory
  rw [h]
  exact ⟨rfl, mapGet_mapSet_self _ _ _⟩

/-- C1 witness: patching memory `\x7ba: 1\x7d` with body `\x7bb: 2\x7d`
through the route stores `\x7ba: 1, b: 2\x7d`. -/
theorem claim_C1_witness :
    mapGet (patchCharacterMemoryRoute 1 [("b", Jval.jnum 2)]
        sampleStorage).2.characters 1 =
      some { sampleCharacter with
              memory := [("a", Jval.jnum 1), ("b", Jval.jnum 2)] } := by
  have h := (claim_C1_memory_patch_route_merges sampleStorage 1 sampleCharacter
    [("b", Jval.jnum 2)] (by decide)).2
  rw [h]
  decide

/-! Claim C2: referential integrity is not an invariant of the store:
`deleteWorld` removes only the world row and `createCharacter` never checks
its `worldId`. -/

/-- C2 fails at a concrete input: `sampleStorage` satisfies referential
integrity, yet after `deleteWorld 1` the character, scene and log rows still
name world 1, which no longer exists. -/
theorem claim_C2_counterexample :
    integrityB sampleStorage = true ∧
    integrityB (MemStorage.deleteWorld 1 sampleStorage).2 = false := by
  decide

/-- C2 amended: `deleteWorld` deletes only the world row, leaving the
character, scene, activity-log and chat-message collections untouched (so
rows referencing the deleted world dangle), and `createCharacter` stores its
row with the caller-supplied `worldId` unconditionally, without any existence
check against the world map. -/
theorem claim_C2_integrity_not_enforced (s : Storage) (id : Nat)
    (ic : InsertCharacter) (now : Nat) :
    (MemStorage.deleteWorld id s).2.characters = s.characters ∧
    (MemStorage.deleteWorld id s).2.scenes = s.scenes ∧
    (MemStorage.deleteWorld id s).2.activityLogs = s.activityLogs ∧
    (MemStorage.deleteWorld id s).2.chatMessages = s.chatMessages ∧
    (MemStorage.createCharacter ic now s).1.worldId = ic.worldId ∧
    mapGet (MemStorage.createCharacter ic now s).2.characters
        s.characterIdCounter = some (MemStorage.createCharacter ic now s).1 := by
  refine ⟨rfl, rfl, rfl, rfl, rfl, ?_⟩
  unfold MemStorage.createCharacter
  exact mapGet_mapSet_self _ _ _

/-! Claim C4: ids are monotonically increasing per entity family and never
reused, across arbitrary call sequences including deletes. -/

/-- C4: along every sequence of store calls from every state, the ids handed
out by the create calls of any one entity family are strictly increasing in
call order — hence every new id exceeds all previously issued ids of that
family and no id is ever reused, deletes included (no call decreases a
counter). -/
theorem claim_C4_id_monotonicity (t : EntityTag) (s : Storage)
    (ops : List StoreOp) :
    (issuedIds t s ops).Pairwise (· < ·) ∧ (issuedIds t s ops).Nodup := by
  have hp : ∀ s : Storage, (issuedIds t s ops).Pairwise (· < ·) := by
    induction ops with
    | nil => intro s; simp [issuedIds]
    | cons op ops ih =>
      intro s
      rw [issuedIds]
      cases hc : isCreateOf t op
      · simpa using ih (step s op)
      · simp only [hc, if_true, List.singleton_append, List.pairwise_cons]
        constructor
        · intro x hx
          have h1 := issuedIds_lower t ops (step s op) x hx
          have h2 := counterOf_step_lt t s op hc
          omega
        · exact ih (step s op)
  exact ⟨hp s, (hp s).imp (fun h => Nat.ne_of_lt h)⟩

/-! Claim C6: generic update on an absent id returns undefined, creates
nothing and leaves the whole store state untouched. -/

/-- C6: for World, Character and Scene, `update` on an id that is not in the
store returns `undefined` and returns the state unchanged — no row is
created, nothing is modified, no error is raised. -/
theorem claim_C6_update_missing_id_soft (s : Storage) (idW idC idS : Nat)
    (dW : WorldPatch) (dC : CharacterPatch) (dS : ScenePatch)
    (hW : mapGet s.worlds idW = none)
    (hC : mapGet s.characters idC = none)
    (hS : mapGet s.scenes idS = none) :
    MemStorage.updateWorld idW dW s = (none, s) ∧
    MemStorage.updateCharacter idC dC s = (none, s) ∧
    MemStorage.updateScene idS dS s = (none, s) := by
  refine ⟨?_, ?_, ?_⟩
  · unfold MemStorage.updateWorld
    rw [hW]
  · unfold MemStorage.updateCharacter
    rw [hC]
  · unfold MemStorage.updateScene
    rw [hS]

/-- C6 witness: updating world, character and scene id 5 on the empty store
returns `undefined` and the store unchanged. -/
theorem claim_C6_witness :
    MemStorage.updateWorld 5 {} emptyStorage = (none, emptyStorage) ∧
    MemStorage.updateCharacter 5 {} emptyStorage = (none, emptyStorage) ∧
    MemStorage.updateScene 5 {} emptyStorage = (none, emptyStorage) :=
  claim_C6_update_missing_id_soft emptyStorage 5 5 5 {} {} {} rfl rfl rfl

/-! Claim C10: generic update stores the shallow spread of the old row with
the patch, caller-supplied keys winning — including `id` and `createdAt`. -/

/-- C10: for an existing id, `update` stores at that key exactly the JS
spread of the old row with the patch: absent patch keys keep the old field
values and present patch keys overwrite them, `id` and `createdAt` included,
so a patch carrying an `id` makes the stored row's `id` field differ from its
map key. -/
theorem claim_C10_update_is_spread (s : Storage) (i : Nat) :
    (∀ w d, mapGet s.worlds i = some w →
      (MemStorage.updateWorld i d s).1 = some (spreadWorld w d) ∧
      mapGet (MemStorage.updateWorld i d s).2.worlds i = some (spreadWorld w d) ∧
      (spreadWorld w d).id = d.id.getD w.id ∧
      (spreadWorld w d).userId = d.userId.getD w.userId ∧
      (spreadWorld w d).name = d.name.getD w.name ∧
      (spreadWorld w d).description = d.description.getD w.description ∧
      (spreadWorld w d).createdAt = d.createdAt.getD w.createdAt) ∧
    (∀ c d, mapGet s.characters i = some c →
      (MemStorage.updateCharacter i d s).1 = some (spreadCharacter c d) ∧
      mapGet (MemStorage.updateCharacter i d s).2.characters i =
        some (spreadCharacter c d) ∧
      (spreadCharacter c d).id = d.id.getD c.id ∧
      (spreadCharacter c d).createdAt = d.createdAt.getD c.createdAt) ∧
    (∀ sc d, mapGet s.scenes i = some sc →
      (MemStorage.updateScene i d s).1 = some (spreadScene sc d) ∧
      mapGet (MemStorage.updateScene i d s).2.scenes i = some (spreadScene sc d) ∧
      (spreadScene sc d).id = d.id.getD sc.id ∧
      (spreadScene sc d).createdAt = d.createdAt.getD sc.createdAt) ∧
    (∀ w, mapGet s.worlds i = some w →
      (mapGet (MemStorage.updateWorld i { id := some (i + 1) } s).2.worlds i).map
        World.id = some (i + 1) ∧ i + 1 ≠ i) := by
  refine ⟨?_, ?_, ?_, ?_⟩
  · intro w d h
    unfold MemStorage.updateWorld
    rw [h]
    exact ⟨rfl, mapGet_mapSet_self _ _ _, rfl, rfl, rfl, rfl, rfl⟩
  · intro c d h
    unfold MemStorage.updateCharacter
    rw [h]
    exact ⟨rfl, mapGet_mapSet_self _ _ _, rfl, rfl⟩
  · intro sc d h
    unfold MemStorage.updateScene
    rw [h]
    exact ⟨rfl, mapGet_mapSet_self _ _ _, rfl, rfl⟩
  · intro w h
    unfold MemStorage.updateWorld
    rw [h]
    refine ⟨?_, by omega⟩
    rw [mapGet_mapSet_self]
    rfl

/-- C10 witness: on the sample store, patching world 1 with `\x7bid: 2\x7d`
stores a row whose `id` field is 2 under map key 1, while a patch without a
`name` key keeps the old name. -/
theorem claim_C10_witness :
    ((mapGet (MemStorage.updateWorld 1 { id := some 2 }
        sampleStorage).2.worlds 1).map World.id = some 2 ∧ (2 : Nat) ≠ 1) ∧
    (MemStorage.updateWorld 1 { description := some "rewritten" }
        sampleStorage).1 =
      some (spreadWorld sampleWorld { description := some "rewritten" }) := by
  constructor
  · exact (claim_C10_update_is_spread sampleStorage 1).2.2.2 sampleWorld (by decide)
  · exact ((claim_C10_update_is_spread sampleStorage 1).1 sampleWorld
      { description := some "rewritten" } (by decide)).1

/-! Claims C7 and C8: failure behaviour of the two AI calls. -/

/-- Environment with no `GEMINI_API_KEY` configured. -/
def envNoKey : GeminiEnv :=
  { hasKey := false, fetch := FetchOutcome.netError, parseMood := fun _ => none }

/-- Environment where the fetch succeeds but the single part of the single
candidate carries no `text` field. -/
def envTextlessPart : GeminiEnv :=
  { hasKey := true
    fetch := FetchOutcome.ok
      { candidates := some [{ content := some { parts := [{ text := none }] } }] }
    parseMood := fun _ => none }

/-- C7: `analyzeMoodFromText` is total (it never raises by construction) and
returns exactly the fixed neutral default on each failure path: missing
credential, thrown fetch, absent or empty candidate list, absent candidate
content, and `JSON.parse` failure on the fence-stripped model text. -/
theorem claim_C7_analyzer_neutral_on_failure (env : GeminiEnv) (text : String) :
    (env.hasKey = false → analyzeMoodFromText env text = neutralMood) ∧
    (env.fetch = FetchOutcome.netError →
      analyzeMoodFromText env text = neutralMood) ∧
    (∀ d, env.fetch = FetchOutcome.ok d →
      (d.candidates = none ∨ d.candidates = some []) →
      analyzeMoodFromText env text = neutralMood) ∧
    (∀ d cand rest, env.fetch = FetchOutcome.ok d →
      d.candidates = some (cand :: rest) → cand.content = none →
      analyzeMoodFromText env text = neutralMood) ∧
    (∀ d cand rest content part parts t, env.fetch = FetchOutcome.ok d →
      d.candidates = some (cand :: rest) → cand.content = some content →
      content.parts = part :: parts → part.text = some t →
      env.parseMood (stripFences t) = none →
      analyzeMoodFromText env text = neutralMood) := by
  refine ⟨?_, ?_, ?_, ?_, ?_⟩
  · intro h
    simp [analyzeMoodFromText, h]
  · intro h
    cases hk : env.hasKey <;> simp [analyzeMoodFromText, hk, h]
  · rintro d h (hc | hc) <;>
      cases hk : env.hasKey <;> simp [analyzeMoodFromText, hk, h, hc]
  · intro d cand rest h hc hct
    cases hk : env.hasKey <;> simp [analyzeMoodFromText, hk, h, hc, hct]
  · intro d cand rest content part parts t h hc hct hp htx hparse
    cases hk : env.hasKey <;>
      simp [analyzeMoodFromText, hk, h, hc, hct, hp, htx, hparse]

/-- C7 witness: with no credential configured the analyzer returns the
neutral default on a concrete text. -/
theorem claim_C7_witness :
    analyzeMoodFromText envNoKey "I am thrilled!" = neutralMood :=
  (claim_C7_analyzer_neutral_on_failure envNoKey "I am thrilled!").1 rfl

/-- C8 fails as stated at a concrete input: when the fetched response has one
candidate whose single part has no `text` field, `generateCharacterResponse`
returns the JS `undefined` value (`parts[0].text` on an existing part does
not throw), not the fixed fallback string. -/
theorem claim_C8_counterexample :
    (generateCharacterResponse envTextlessPart sampleCharacter []).response
        = none ∧
    (generateCharacterResponse envTextlessPart sampleCharacter []).response
        ≠ some fallbackResponse := by
  refine ⟨rfl, ?_⟩
  simp [generateCharacterResponse, envTextlessPart]

/-- C8 amended: with no configured credential the generator returns the fixed
fallback string without reaching the fetch call; a thrown fetch, an absent or
empty candidate list, an absent candidate content, or an empty parts array
also yield the fixed fallback (never an exception); but when the first part
exists and merely lacks a `text` value the function returns the JS
`undefined` value rather than the fallback string. -/
theorem claim_C8_generator_fallback (env : GeminiEnv) (c : Character)
    (msgs : List ChatMessage) :
    (env.hasKey = false →
      generateCharacterResponse env c msgs =
        { response := some fallbackResponse, networkCalled := false }) ∧
    (env.fetch = FetchOutcome.netError →
      (generateCharacterResponse env c msgs).response = some fallbackResponse) ∧
    (∀ d, env.fetch = FetchOutcome.ok d →
      (d.candidates = none ∨ d.candidates = some []) →
      (generateCharacterResponse env c msgs).response = some fallbackResponse) ∧
    (∀ d cand rest, env.fetch = FetchOutcome.ok d →
      d.candidates = some (cand :: rest) → cand.content = none →
      (generateCharacterResponse env c msgs).response = some fallbackResponse) ∧
    (∀ d cand rest content, env.fetch = FetchOutcome.ok d →
      d.candidates = some (cand :: rest) → cand.content = some content →
      content.parts = [] →
      (generateCharacterResponse env c msgs).response = some fallbackResponse) ∧
    (∀ d cand rest content part parts, env.hasKey = true →
      env.fetch = FetchOutcome.ok d → d.candidates = some (cand :: rest) →
      cand.content = some content → content.parts = part :: parts →
      (generateCharacterResponse env c msgs).response = part.text) := by
  refine ⟨?_, ?_, ?_, ?_, ?_, ?_⟩
  · intro h
    simp [generateCharacterResponse, h]
  · intro h
    cases hk : env.hasKey <;> simp [generateCharacterResponse, hk, h]
  · rintro d h (hc | hc) <;>
      cases hk : env.hasKey <;> simp [generateCharacterResponse, hk, h, hc]
  · intro d cand rest h hc hct
    cases hk : env.hasKey <;> simp [generateCharacterResponse, hk, h, hc, hct]
  · intro d cand rest content h hc hct hp
    cases hk : env.hasKey <;>
      simp [generateCharacterResponse, hk, h, hc, hct, hp]
  · intro d cand rest content part parts hk h hc hct hp
    simp [generateCharacterResponse, hk, h, hc, hct, hp]

/-- C8 witness: with no credential configured the generator returns the
fallback string and the fetch is never reached. -/
theorem claim_C8_witness :
    generateCharacterResponse envNoKey sampleCharacter [] =
      { response := some fallbackResponse, networkCalled := false } :=
  (claim_C8_generator_fallback envNoKey sampleCharacter []).1 rfl

/-! Claim C5: ordering of the three list operations and the activity-log
result cap. -/

/-- C5 holds for the orderings, and for the cap only when the supplied limit
is positive: scenes per world come back newest-first, chat messages per
character oldest-first, activity logs per world newest-first, each a
permutation of the respective filtered collection; a supplied positive limit
`n` caps the log list at `n` entries and keeps it sorted. -/
theorem claim_C5_list_ordering (w cid : Nat) (s : Storage) :
    (List.Sorted (fun a b : Scene => b.createdAt ≤ a.createdAt)
        (MemStorage.getScenesByWorld w s) ∧
      (MemStorage.getScenesByWorld w s).Perm
        ((mapValues s.scenes).filter (fun sc => sc.worldId == w))) ∧
    (List.Sorted (fun a b : ChatMessage => a.createdAt ≤ b.createdAt)
        (MemStorage.getChatMessagesByCharacter cid s) ∧
      (MemStorage.getChatMessagesByCharacter cid s).Perm
        ((mapValues s.chatMessages).filter (fun m => m.characterId == cid))) ∧
    (List.Sorted (fun a b : ActivityLog => b.createdAt ≤ a.createdAt)
        (MemStorage.getActivityLogsByWorld w none s) ∧
      (MemStorage.getActivityLogsByWorld w none s).Perm
        ((mapValues s.activityLogs).filter (fun l => l.worldId == w))) ∧
    (∀ n : Int, 0 < n →
      (MemStorage.getActivityLogsByWorld w (some n) s).length ≤ n.toNat ∧
      List.Sorted (fun a b : ActivityLog => b.createdAt ≤ a.createdAt)
        (MemStorage.getActivityLogsByWorld w (some n) s)) := by
  haveI hts : IsTotal Scene (fun a b => b.createdAt ≤ a.createdAt) :=
    ⟨fun a b => Nat.le_total b.createdAt a.createdAt⟩
  haveI hrs : IsTrans Scene (fun a b => b.createdAt ≤ a.createdAt) :=
    ⟨fun _ _ _ h1 h2 => Nat.le_trans h2 h1⟩
  haveI htm : IsTotal ChatMessage (fun a b => a.createdAt ≤ b.createdAt) :=
    ⟨fun a b => Nat.le_total a.createdAt b.createdAt⟩
  haveI hrm : IsTrans ChatMessage (fun a b => a.createdAt ≤ b.createdAt) :=
    ⟨fun _ _ _ h1 h2 => Nat.le_trans h1 h2⟩
  haveI htl : IsTotal ActivityLog (fun a b => b.createdAt ≤ a.createdAt) :=
    ⟨fun a b => Nat.le_total b.createdAt a.createdAt⟩
  haveI hrl : IsTrans ActivityLog (fun a b => b.createdAt ≤ a.createdAt) :=
    ⟨fun _ _ _ h1 h2 => Nat.le_trans h2 h1⟩
  refine ⟨⟨?_, ?_⟩, ⟨?_, ?_⟩, ⟨?_, ?_⟩, ?_⟩
  · exact List.sorted_insertionSort _ _
  · exact List.perm_insertionSort _ _
  · exact List.sorted_insertionSort _ _
  · exact List.perm_insertionSort _ _
  · exact List.sorted_insertionSort _ _
  · exact List.perm_insertionSort _ _
  · intro n hn
    have hne : ¬ n = 0 := by omega
    have hpos : 0 ≤ n := le_of_lt hn
    constructor
    · simp only [MemStorage.getActivityLogsByWorld, MemStorage.jsSliceTo,
        if_neg hne, if_pos hpos]
      exact List.length_take_le _ _
    · simp only [MemStorage.getActivityLogsByWorld, MemStorage.jsSliceTo,
        if_neg hne, if_pos hpos]
      exact (List.sorted_insertionSort _ _).sublist (List.take_sublist _ _)

/-- C5 witness: concrete instance of the ordering statement on the sample
store with limit 1. -/
theorem claim_C5_witness :
    (MemStorage.getActivityLogsByWorld 1 (some 1) sampleStorage).length ≤
      (1 : Int).toNat :=
  ((claim_C5_list_ordering 1 1 sampleStorage).2.2.2 1 (by decide)).1

/-- C5 fails for a supplied limit of 0: `if (limit)` treats 0 as falsy, so
`getActivityLogsByWorld` applied to the sample store (one log in world 1)
with limit 0 returns that log instead of at most 0 entries. -/
theorem claim_C5_counterexample :
    (MemStorage.getActivityLogsByWorld 1 (some 0) sampleStorage).length = 1 ∧
    ¬ (MemStorage.getActivityLogsByWorld 1 (some 0) sampleStorage).length ≤
        (0 : Int).toNat := by
  decide

/-! Claim C3: after a successful generation request, the mood analysis is
persisted on both the new chat message and the character. -/

/-- Mood analysis value the generation route computes for character `c`: the
generated reply (the `undefined` of a text-less part is stringified by the
template literal) fed to the analyzer. -/
def routeMood (envG envA : GeminiEnv) (s : Storage) (c : Character) :
    MoodAnalysis :=
  analyzeMoodFromText envA
    ((generateCharacterResponse envG c
        (MemStorage.getChatMessagesByCharacter c.id s)).response.getD "undefined")

/-- C3: for an existing character (whose row's `id` field matches its key,
as every row created by the store satisfies), a successful
`POST /api/generate-character-response` stores the analyzed `mood`,
`intensity` and `dominantColor` on the new chat message's `mood`,
`moodIntensity`, `moodColor` keys and on the character's `currentMood`,
`currentMoodIntensity`, `currentMoodColor` keys. -/
theorem claim_C3_mood_persisted (envG envA : GeminiEnv) (s : Storage)
    (i tMsg : Nat) (c : Character)
    (hc : mapGet s.characters i = some c) (hid : c.id = i) :
    (mapGet (generateCharacterResponseRoute envG envA i tMsg s).2.chatMessages
        s.chatMessageIdCounter).map
        (fun msg => (msg.mood, msg.moodIntensity, msg.moodColor)) =
      some (some (routeMood envG envA s c).mood,
        some (routeMood envG envA s c).intensity,
        some (routeMood envG envA s c).dominantColor) ∧
    (mapGet (generateCharacterResponseRoute envG envA i tMsg s).2.characters
        i).map
        (fun ch => (ch.currentMood, ch.currentMoodIntensity, ch.currentMoodColor)) =
      some (some (routeMood envG envA s c).mood,
        some (routeMood envG envA s c).intensity,
        some (routeMood envG envA s c).dominantColor) := by
  have hroute : generateCharacterResponseRoute envG envA i tMsg s =
      (some ((generateCharacterResponse envG c
          (MemStorage.getChatMessagesByCharacter c.id s)).response,
        routeMood envG envA s c),
        (MemStorage.updateCharacter c.id
          { currentMood := some (routeMood envG envA s c).mood
            currentMoodIntensity := some (routeMood envG envA s c).intensity
            currentMoodColor := some (routeMood envG envA s c).dominantColor }
          (MemStorage.createChatMessage
            { characterId := c.id, userId := 1, isUserMessage := false
              content := (generateCharacterResponse envG c
                (MemStorage.getChatMessagesByCharacter c.id s)).response
              mood := some (routeMood envG envA s c).mood
              moodIntensity := some (routeMood envG envA s c).intensity
              moodColor := some (routeMood envG envA s c).dominantColor }
            tMsg s).2).2) := by
    unfold generateCharacterResponseRoute MemStorage.getCharacter routeMood
    rw [hc]
  rw [hroute]
  rw [hid]
  unfold MemStorage.updateCharacter MemStorage.createChatMessage
  dsimp only
  rw [hc]
  dsimp only
  constructor
  · rw [mapGet_mapSet_self]
    rfl
  · rw [mapGet_mapSet_self]
    rfl

/-- C3 witness: with no credential configured (so the analysis is the neutral
default), generating for the sample character persists the neutral mood on
message key 1 and on the character row. -/
theorem claim_C3_witness :
    (mapGet (generateCharacterResponseRoute envNoKey envNoKey 1 300
        sampleStorage).2.chatMessages 1).map
        (fun msg => (msg.mood, msg.moodIntensity, msg.moodColor)) =
      some (some "neutral", some ((1 : Rat)/2), some "#808080") ∧
    (mapGet (generateCharacterResponseRoute envNoKey envNoKey 1 300
        sampleStorage).2.characters 1).map
        (fun ch => (ch.currentMood, ch.currentMoodIntensity, ch.currentMoodColor)) =
      some (some "neutral", some ((1 : Rat)/2), some "#808080") := by
  have h := claim_C3_mood_persisted envNoKey envNoKey sampleStorage 1 300
    sampleCharacter (by decide) (by decide)
  have hm : routeMood envNoKey envNoKey sampleStorage sampleCharacter =
      neutralMood := rfl
  rw [hm] at h
  exact h

/-! Claim C9: end-to-end scenario on a fresh world. -/

/-- Appending an entry with one key does not make a lookup at a different,
previously absent key succeed. -/
theorem mapGet_append_singleton_ne (m : List (Nat × α)) (k k' : Nat) (v : α)
    (hm : mapGet m k' = none) (hk : (k == k') = false) :
    mapGet (m ++ [(k, v)]) k' = none := by
  unfold mapGet at *
  rw [List.find?_append]
  cases hf : m.find? (fun p => p.1 == k')
  · simp [List.find?, hk, Option.or]
  · rw [hf] at hm
    simp at hm

/-- C9: starting from a state in which the next world id `N` is fresh (no
character or activity log mentions world `N`, and the next log and character
keys are unused), `POST /api/worlds` followed by `POST /api/characters` for a
character in world `N` — the second request observing a strictly later clock
— makes `GET /api/worlds/N/characters` return exactly the one new character
and `GET /api/worlds/N/activity` return exactly the two new log entries
newest-first: `CHARACTER_CREATED` before `WORLD_CREATED`. -/
theorem claim_C9_end_to_end (s : Storage) (nm ds cname crole cpers : String)
    (t1 t2 t3 t4 : Nat) (r1 : World × Storage) (r2 : Character × Storage)
    (hfc : (mapValues s.characters).filter
      (fun ch => ch.worldId == s.worldIdCounter) = [])
    (hfl : (mapValues s.activityLogs).filter
      (fun l => l.worldId == s.worldIdCounter) = [])
    (hl1 : mapGet s.activityLogs s.activityLogIdCounter = none)
    (hl2 : mapGet s.activityLogs (s.activityLogIdCounter + 1) = none)
    (hc1 : mapGet s.characters s.characterIdCounter = none)
    (ht : t2 < t4)
    (hr1 : r1 = postWorldRoute nm ds t1 t2 s)
    (hr2 : r2 = postCharacterRoute
      { worldId := s.worldIdCounter, name := cname, role := crole
        appearance := none, personality := cpers, backstory := none
        memory := [] } t3 t4 r1.2) :
    getWorldCharactersRoute s.worldIdCounter r2.2 = some [r2.1] ∧
    (getWorldActivityRoute s.worldIdCounter none r2.2).map
        (List.map (fun l => (l.activityType, l.worldId, l.entityId))) =
      some [("CHARACTER_CREATED", s.worldIdCounter, some r2.1.id),
        ("WORLD_CREATED", s.worldIdCounter, some r1.1.id)] := by
  subst hr1
  subst hr2
  have hfc' : (s.characters.map Prod.snd).filter
      (fun ch => ch.worldId == s.worldIdCounter) = [] := by
    simpa [mapValues] using hfc
  have hfl' : (s.activityLogs.map Prod.snd).filter
      (fun l => l.worldId == s.worldIdCounter) = [] := by
    simpa [mapValues] using hfl
  have hbeq : (s.activityLogIdCounter == s.activityLogIdCounter + 1) = false := by
    rw [beq_eq_false_iff_ne]
    omega
  constructor
  · unfold getWorldCharactersRoute MemStorage.getWorld postCharacterRoute
      postWorldRoute MemStorage.createWorld MemStorage.createCharacter
      MemStorage.createActivityLog MemStorage.getCharactersByWorld mapValues
    dsimp only
    rw [mapSet_fresh _ _ _ hc1]
    rw [mapGet_mapSet_self]
    dsimp only
    simp [List.filter_append, hfc']
  · unfold getWorldActivityRoute MemStorage.getWorld
      MemStorage.getActivityLogsByWorld postCharacterRoute postWorldRoute
      MemStorage.createWorld MemStorage.createCharacter
      MemStorage.createActivityLog mapValues
    dsimp only
    rw [mapSet_fresh _ _ _ hl1]
    rw [mapSet_fresh _ _ _
      (mapGet_append_singleton_ne s.activityLogs s.activityLogIdCounter
        (s.activityLogIdCounter + 1) _ hl2 hbeq)]
    rw [mapGet_mapSet_self]
    dsimp only
    simp only [List.map_append, List.filter_append, hfl', List.append_assoc,
      List.nil_append, List.map_cons, List.map_nil, List.filter_cons,
      List.filter_nil]
    rw [if_pos (by simp), if_pos (by simp)]
    simp only [List.insertionSort, List.orderedInsert]
    rw [if_neg (by simpa using by omega : ¬ t4 ≤ t2)]
    simp

/-- C9 witness: the scenario on the empty store with clock readings
10, 20, 30, 40. -/
theorem claim_C9_witness :
    getWorldCharactersRoute 1
        (postCharacterRoute
          { worldId := 1, name := "Hero", role := "Knight"
            appearance := none, personality := "Brave", backstory := none
            memory := [] } 30 40
          (postWorldRoute "Test" "A test world" 10 20 emptyStorage).2).2 =
      some [(postCharacterRoute
          { worldId := 1, name := "Hero", role := "Knight"
            appearance := none, personality := "Brave", backstory := none
            memory := [] } 30 40
          (postWorldRoute "Test" "A test world" 10 20 emptyStorage).2).1] ∧
    (getWorldActivityRoute 1 none
        (postCharacterRoute
          { worldId := 1, name := "Hero", role := "Knight"
            appearance := none, personality := "Brave", backstory := none
            memory := [] } 30 40
          (postWorldRoute "Test" "A test world" 10 20 emptyStorage).2).2).map
        (List.map (fun l => (l.activityType, l.worldId, l.entityId))) =
      some [("CHARACTER_CREATED", 1, some 1), ("WORLD_CREATED", 1, some 1)] := by
  have h := claim_C9_end_to_end emptyStorage "Test" "A test world" "Hero"
    "Knight" "Brave" 10 20 30 40
    (postWorldRoute "Test" "A test world" 10 20 emptyStorage)
    (postCharacterRoute
      { worldId := 1, name := "Hero", role := "Knight"
        appearance := none, personality := "Brave", backstory := none
        memory := [] } 30 40
      (postWorldRoute "Test" "A test world" 10 20 emptyStorage).2)
    (by decide) (by decide) (by decide) (by decide) (by decide) (by decide)
    rfl rfl
  exact h

end DreamScribe
